import Mathlib

/-!
Shallow embedding of the `lightning` repository's strategy layer:
`TPUSpawnStrategy` (src/src/lightning_lite/lite/strategies/tpu_spawn.py),
`SingleTPUStrategy` (src/src/lightning_lite/lite/strategies/single_tpu.py) and
`ColossalAIPrecisionPlugin`
(src/src/pytorch_lightning/plugins/precision/colossalai.py), together with
theorems settling the specification's claims about them.

Python exceptions are modelled as an `Except PyError` result; machine state
that the code mutates (the `_launched` flag, rank bookkeeping) is explicit
strategy state; the external XLA runtime's collective primitives
(`xm.mesh_reduce`, `xm.all_gather`, `rendezvous`) are modelled after the
contract the repository documents for them (a global sum reduce, a stacking
all-gather of identical per-process tensors).
-/

namespace Lightning

/-- Python exception kinds raised by the embedded code. -/
inductive PyError where
  | runtimeError (msg : String)
  | valueError (msg : String)
  | typeError (msg : String)
  | misconfigurationException (msg : String)
  deriving DecidableEq, Repr

/-- Device handles handed out by the accelerator runtime (`xm.xla_device()`
returns the current process's XLA device; `cpu` is the host device that
`Tensor.cpu()` moves data to). -/
inductive Device where
  | xla (index : Nat)
  | cpu
  deriving DecidableEq, Repr

/-- `xm.xla_device()`: the XLA device bound to the current process. -/
def xla_device : Device := Device.xla 0

/-- State of a `TPUSpawnStrategy` object.  `launched` is the source's
`self._launched` flag (set in `__init__` to `False`, flipped by
`_worker_setup`); `worldSize`, `globalRank` and `localRank` are the
rank/world bookkeeping inherited from `DDPSpawnStrategy`;
`hostWorldSizeSet` models whether `xenv.HOST_WORLD_SIZE` is present in
`os.environ` (set only inside the `xmp.spawn` processes). -/
structure TPUSpawnStrategy where
  launched : Bool
  worldSize : Nat
  globalRank : Nat
  localRank : Nat
  hostWorldSizeSet : Bool
  deriving DecidableEq, Repr

/-- The message of the `RuntimeError` raised by `root_device` before launch. -/
def xlaUnlaunchedMsg : String :=
  "Accessing the XLA device before processes have spawned is not allowed."

/-- `TPUSpawnStrategy.root_device`: raises a `RuntimeError` while
`self._launched` is false, otherwise returns `xm.xla_device()`. -/
def root_device (s : TPUSpawnStrategy) : Except PyError Device :=
  if s.launched = false then
    Except.error (PyError.runtimeError xlaUnlaunchedMsg)
  else
    Except.ok xla_device

/-- Modelled from the spec: `DDPSpawnStrategy.set_world_ranks` is not under
src/; the spec says worker setup "computes and stores this process's
global/local rank and world size from the process index". -/
def set_world_ranks (s : TPUSpawnStrategy) (process_idx : Nat) : TPUSpawnStrategy :=
  { s with globalRank := process_idx, localRank := process_idx }

/-- `TPUSpawnStrategy._worker_setup`: sets `self._launched = True`, then
`self.set_world_ranks(process_idx)` (the process-wide `rank_zero_only.rank`
global it also sets is outside the strategy state). -/
def _worker_setup (s : TPUSpawnStrategy) (process_idx : Nat) : TPUSpawnStrategy :=
  set_world_ranks { s with launched := true } process_idx

/-- `TPUSpawnStrategy.__init__`: constructs the strategy with
`self._launched = False`.  `worldSize` and the environment indicator are the
ambient cluster-environment inputs. -/
def TPUSpawnStrategy.init (worldSize : Nat) (hostWorldSizeSet : Bool) : TPUSpawnStrategy :=
  { launched := false
    worldSize := worldSize
    globalRank := 0
    localRank := 0
    hostWorldSizeSet := hostWorldSizeSet }

/-- `TPUSpawnStrategy.is_distributed`: true iff `xenv.HOST_WORLD_SIZE` is in
`os.environ` and the world size is not 1. -/
def is_distributed (s : TPUSpawnStrategy) : Bool :=
  s.hostWorldSizeSet && !(s.worldSize == 1)

/-! ## `TPUSpawnStrategy.reduce` -/

/-- `lightning_lite.lite.utilities.distributed.ReduceOp` kinds (the torch
reduce-operation enum re-exported by the repository's utilities). -/
inductive ReduceOp where
  | SUM
  | PRODUCT
  | MIN
  | MAX
  deriving DecidableEq, Repr

/-- Printable form of a `ReduceOp`, used in the `ValueError` message. -/
def ReduceOp.render : ReduceOp → String
  | ReduceOp.SUM => "ReduceOp.SUM"
  | ReduceOp.PRODUCT => "ReduceOp.PRODUCT"
  | ReduceOp.MIN => "ReduceOp.MIN"
  | ReduceOp.MAX => "ReduceOp.MAX"

/-- The dynamically-typed `reduce_op` argument of `reduce`: `None` (the
default), a `str`, a `ReduceOp`, or any other Python value (`other`), since
the code only ever branches on `isinstance(reduce_op, ReduceOp)` and
`isinstance(reduce_op, str)`. -/
inductive ReduceArg where
  | none
  | str (t : String)
  | op (r : ReduceOp)
  | other
  deriving DecidableEq, Repr

/-- Printable form of the `reduce_op` argument, as interpolated into the
`ValueError` message (`f" {reduce_op}"`). -/
def ReduceArg.render : ReduceArg → String
  | ReduceArg.none => "None"
  | ReduceArg.str t => t
  | ReduceArg.op r => r.render
  | ReduceArg.other => "<object>"

/-- Python's `str.lower()` for the ASCII strings compared by `reduce`
(character-wise lowercasing). -/
def py_lower (s : String) : String := String.mk (s.data.map Char.toLower)

/-- The fixed part of `reduce`'s `ValueError` message; the offending
`reduce_op` is appended to it. -/
def reduceErrBase : String :=
  "Currently, the TPUSpawnStrategy only supports `sum`, `mean`, `avg` for the reduce operation, got: "

/-- A per-process input to `reduce`: either already a `Tensor` holding a
scalar value, or a non-tensor Python number that the code coerces with
`torch.tensor(output, device=self.root_device)`. -/
inductive RInput where
  | tensor (v : ℚ)
  | pynum (v : ℚ)
  deriving DecidableEq, Repr

/-- The scalar value an `RInput` holds once on-device. -/
def RInput.toTensorValue : RInput → ℚ
  | RInput.tensor v => v
  | RInput.pynum v => v

/-- The coercion step at the top of `reduce`:
`if not isinstance(output, Tensor): output = torch.tensor(output, device=self.root_device)`.
Reading `self.root_device` can raise the pre-launch `RuntimeError`. -/
def coerce_to_tensor (s : TPUSpawnStrategy) : RInput → Except PyError ℚ
  | RInput.tensor v => Except.ok v
  | RInput.pynum v =>
    match root_device s with
    | Except.error e => Except.error e
    | Except.ok _ => Except.ok v

/-- The coercion step applied in every participating process (each process
runs the same `reduce` call on its own local `output`). -/
def coerce_all (s : TPUSpawnStrategy) : List RInput → Except PyError (List ℚ)
  | [] => Except.ok []
  | x :: xs =>
    match coerce_to_tensor s x, coerce_all s xs with
    | Except.ok v, Except.ok vs => Except.ok (v :: vs)
    | Except.error e, _ => Except.error e
    | Except.ok _, Except.error e => Except.error e

/-- `TPUSpawnStrategy.reduce`, viewed across the whole process mesh:
`outputs` lists the per-process local values (one entry per process).  After
the coercion step, the code computes
`invalid_reduce_op = isinstance(reduce_op, ReduceOp) and reduce_op != ReduceOp.SUM` and
`invalid_reduce_op_str = isinstance(reduce_op, str) and reduce_op.lower() not in ("sum", "mean", "avg")`,
raises `ValueError` if either holds, then runs
`xm.mesh_reduce("reduce", output, sum)` (the global sum of the per-process
values) and finally divides by `self.world_size` when `reduce_op` is a
string whose lowercase form is `"avg"` or `"mean"`. -/
def reduce (s : TPUSpawnStrategy) (outputs : List RInput) (reduce_op : ReduceArg) :
    Except PyError ℚ :=
  match coerce_all s outputs with
  | Except.error e => Except.error e
  | Except.ok vals =>
    let invalid_reduce_op : Bool :=
      match reduce_op with
      | ReduceArg.op ReduceOp.SUM => false
      | ReduceArg.op _ => true
      | _ => false
    let invalid_reduce_op_str : Bool :=
      match reduce_op with
      | ReduceArg.str t => !(py_lower t == "sum" || py_lower t == "mean" || py_lower t == "avg")
      | _ => false
    if invalid_reduce_op || invalid_reduce_op_str then
      Except.error (PyError.valueError (reduceErrBase ++ reduce_op.render))
    else
      let out : ℚ := vals.sum
      let out : ℚ :=
        match reduce_op with
        | ReduceArg.str t =>
          if py_lower t == "avg" || py_lower t == "mean" then out / (s.worldSize : ℚ) else out
        | _ => out
      Except.ok out

/-! ## Checkpoint removal -/

/-- `TPUSpawnStrategy.remove_checkpoint`: calls
`self.checkpoint_io.remove_checkpoint(filepath)` only when
`self.local_rank == 0`.  The returned list records the delegate
invocations (by filepath) this call performs; nothing else is touched. -/
def remove_checkpoint (s : TPUSpawnStrategy) (filepath : String) : List String :=
  if s.localRank = 0 then [filepath] else []

/-! ## Broadcast -/

/-- Tensor dtypes relevant to `broadcast`: `torch.float` (the dtype the code
passes to `torch.tensor`) and `torch.uint8` (the dtype produced by
`Tensor.byte()`). -/
inductive Dtype where
  | float
  | byte
  deriving DecidableEq, Repr

/-- A flat tensor as used by `broadcast`: a device, a dtype and the byte
values it carries (byte values 0..255 are exactly representable in both
dtypes, so the numeric payload is dtype-independent). -/
structure XTensor where
  device : Device
  dtype : Dtype
  data : List Nat
  deriving DecidableEq, Repr

/-- A Python object as `broadcast` sees it: identified by the byte payload
`torch.save` writes for it. -/
structure PyObj where
  payload : List Nat
  deriving DecidableEq, Repr

/-- `torch.save(obj, buffer)`: a self-delimiting serialization of the
object, modelled as a length header followed by the payload (so that
`torch.load` on a longer buffer recovers exactly the first object). -/
def torch_save (obj : PyObj) : List Nat := obj.payload.length :: obj.payload

/-- `torch.load(buffer)`: reads the first serialized object from the buffer
and ignores any trailing bytes. -/
def torch_load (buffer : List Nat) : PyObj :=
  match buffer with
  | [] => PyObj.mk []
  | n :: rest => PyObj.mk (rest.take n)

/-- `xm.all_gather` on the identical flat tensor supplied by each of the
`worldSize` processes (the repository documents the gathered result as the
per-process tensors stacked along a new leading dimension; flattened, that
is the per-process payloads concatenated). -/
def xm_all_gather (worldSize : Nat) (t : XTensor) : XTensor :=
  XTensor.mk t.device t.dtype (List.replicate worldSize t.data).flatten

/-- `Tensor.cpu().byte()`: moves the tensor to host memory and converts it
to dtype `uint8`, keeping the carried byte values. -/
def tensor_cpu_byte (t : XTensor) : XTensor :=
  XTensor.mk Device.cpu Dtype.byte t.data

/-- The wrapping step of `broadcast`:
`data_tensor = torch.tensor(data, device=self.root_device, dtype=torch.float)` —
the serialized bytes become a tensor of dtype `torch.float` on the bound
device. -/
def broadcast_wrap (dev : Device) (obj : PyObj) : XTensor :=
  XTensor.mk dev Dtype.float (torch_save obj)

/-- `TPUSpawnStrategy.broadcast(obj, src)`: returns `obj` unchanged when
`is_distributed` is false; otherwise serializes `obj`, wraps the bytes as a
float tensor on `self.root_device`, all-gathers the tensors across the
mesh, converts the gathered tensor to bytes on the CPU and deserializes the
resulting buffer.  `src` is accepted but never read by the body. -/
def broadcast (s : TPUSpawnStrategy) (obj : PyObj) (src : Nat) : Except PyError PyObj :=
  if is_distributed s = false then
    Except.ok obj
  else
    match root_device s with
    | Except.error e => Except.error e
    | Except.ok dev =>
      let data_tensor := broadcast_wrap dev obj
      let gathered := xm_all_gather s.worldSize data_tensor
      Except.ok (torch_load (tensor_cpu_byte gathered).data)

/-! ## All-gather -/

/-- A shaped tensor for `all_gather`: `shape` is the dimension list
(`dim() = shape.length`; a zero-dimensional tensor has `shape = []` and one
element) and `data` the flattened elements. -/
structure STensor where
  shape : List Nat
  data : List ℚ
  deriving DecidableEq, Repr

/-- `Tensor.unsqueeze(0)`: prepends a dimension of size 1. -/
def unsqueeze0 (t : STensor) : STensor := STensor.mk (1 :: t.shape) t.data

/-- `xm.all_gather` on the identical shaped tensor supplied by each of the
`worldSize` processes: the per-process tensors stacked into shape
`(worldSize, ...t.shape)` (the contract the repository documents for the
collective). -/
def xm_all_gather_shaped (worldSize : Nat) (t : STensor) : STensor :=
  STensor.mk (worldSize :: t.shape) (List.replicate worldSize t.data).flatten

/-- `TPUSpawnStrategy.all_gather(tensor, group, sync_grads)`: promotes a
zero-dimensional tensor with `unsqueeze(0)`, then returns
`xm.all_gather(tensor)`; `group` and `sync_grads` are accepted but unused
on this backend. -/
def all_gather (s : TPUSpawnStrategy) (tensor : STensor)
    (group : Option Unit) (sync_grads : Bool) : STensor :=
  let tensor := if tensor.shape.length = 0 then unsqueeze0 tensor else tensor
  xm_all_gather_shaped s.worldSize tensor

/-! ## Dataloader validation -/

/-- The (possibly nested) argument of `_validate_dataloader`: a leaf
dataloader, recording whether `has_len` holds for it, or a
`Sequence`/`Mapping` container of further collections (the `wrong_dtype`
containers that `apply_to_collection` recurses into). -/
inductive DLColl where
  | leaf (has_len : Bool)
  | seqc (xs : List DLColl)
  | mapc (xs : List (String × DLColl))

/-- The message of the `TypeError` raised for a dataloader without length
support. -/
def tpuLenErrMsg : String :=
  "TPUs do not currently support IterableDataset objects, the dataset must implement `__len__`. HINT: You can mock the length on your dataset to bypass this MisconfigurationException."

/-- The inner `check_has_len` closure of `_validate_dataloader`: raises a
`TypeError` when `has_len(dataloader)` is false. -/
def check_has_len (has_len : Bool) : Except PyError Unit :=
  if has_len then Except.ok () else Except.error (PyError.typeError tpuLenErrMsg)

mutual
/-- Modelled from the spec: `apply_to_collection` (utilities/apply_func.py,
not under src/) "recursively applied across arbitrarily nested
sequence/mapping containers", applying the given check to every leaf; the
first raised error propagates.  Specialized here to
`_validate_dataloader`'s call
`apply_to_collection(dataloaders, dtype=object, wrong_dtype=(Sequence, Mapping), function=check_has_len)`. -/
def _validate_dataloader : DLColl → Except PyError Unit
  | DLColl.leaf h => check_has_len h
  | DLColl.seqc xs => validate_list xs
  | DLColl.mapc xs => validate_pairs xs

/-- Traversal of a `Sequence` container by `apply_to_collection`. -/
def validate_list : List DLColl → Except PyError Unit
  | [] => Except.ok ()
  | x :: xs =>
    match _validate_dataloader x with
    | Except.error e => Except.error e
    | Except.ok _ => validate_list xs

/-- Traversal of a `Mapping` container by `apply_to_collection`. -/
def validate_pairs : List (String × DLColl) → Except PyError Unit
  | [] => Except.ok ()
  | x :: xs =>
    match _validate_dataloader x.2 with
    | Except.error e => Except.error e
    | Except.ok _ => validate_pairs xs
end

mutual
/-- Specification-side predicate: every leaf dataloader of the collection
supports length introspection. -/
def allLeavesHaveLen : DLColl → Bool
  | DLColl.leaf h => h
  | DLColl.seqc xs => allLeavesHaveLenList xs
  | DLColl.mapc xs => allLeavesHaveLenPairs xs

/-- `allLeavesHaveLen` over a sequence container's elements. -/
def allLeavesHaveLenList : List DLColl → Bool
  | [] => true
  | x :: xs => allLeavesHaveLen x && allLeavesHaveLenList xs

/-- `allLeavesHaveLen` over a mapping container's values. -/
def allLeavesHaveLenPairs : List (String × DLColl) → Bool
  | [] => true
  | x :: xs => allLeavesHaveLen x.2 && allLeavesHaveLenPairs xs
end

/-! ## `ColossalAIPrecisionPlugin.optimizer_step` -/

/-- The `model` argument of `optimizer_step`: a `LightningModule` with its
`automatic_optimization` flag, or any other module/model object (the code
branches on `isinstance(model, pl.LightningModule)`). -/
inductive ModelKind where
  | lightningModule (automatic_optimization : Bool)
  | plainModule
  deriving DecidableEq, Repr

/-- The `MisconfigurationException` message for a skipped backward pass. -/
def colossalSkipMsg : String :=
  "Skipping backward by returning `None` from your `training_step` is not supported by `Colossalai`"

/-- Observable outcome of `ColossalAIPrecisionPlugin.optimizer_step`:
whether `closure()` and `self._after_closure(...)` ran, whether
`optimizer.step()` was invoked, and the exception raised, if any. -/
structure OptStepTrace where
  closure_called : Bool
  after_closure_called : Bool
  optimizer_stepped : Bool
  error : Option PyError
  deriving DecidableEq, Repr

/-- `ColossalAIPrecisionPlugin.optimizer_step`: runs the closure, runs
`_after_closure`, and, when the closure result is `None` while the model is
a `LightningModule` with `automatic_optimization` enabled, raises a
`MisconfigurationException` before reaching `optimizer.step()`; otherwise
it calls `optimizer.step()` and returns. -/
def optimizer_step (model : ModelKind) (closure_result : Option ℚ) : OptStepTrace :=
  let skipped_backward : Bool := closure_result.isNone
  let is_lm_auto : Bool :=
    match model with
    | ModelKind.lightningModule auto => auto
    | ModelKind.plainModule => false
  if is_lm_auto && skipped_backward then
    OptStepTrace.mk true true false (some (PyError.misconfigurationException colossalSkipMsg))
  else
    OptStepTrace.mk true true true Option.none

/-! ## Theorems -/

theorem coerce_all_launched (s : TPUSpawnStrategy) (hl : s.launched = true)
    (outputs : List RInput) :
    coerce_all s outputs = Except.ok (outputs.map RInput.toTensorValue) := by
  induction outputs with
  | nil => rfl
  | cons x xs ih =>
    cases x <;> simp [coerce_all, coerce_to_tensor, root_device, hl, ih, RInput.toTensorValue]

/-- C1: reading `root_device` before `_worker_setup` has run (the strategy
still in its constructed, unlaunched state) raises a `RuntimeError`; after
`_worker_setup` has run for any process index `0..world_size-1` it returns
the accelerator's device handle without error. -/
theorem root_device_launch_guard (s : TPUSpawnStrategy) (i : Nat)
    (hi : i < s.worldSize) :
    (s.launched = false →
      root_device s = Except.error (PyError.runtimeError xlaUnlaunchedMsg)) ∧
    root_device (_worker_setup s i) = Except.ok xla_device := by
  constructor
  · intro h
    simp [root_device, h]
  · simp [root_device, _worker_setup, set_world_ranks]

theorem root_device_launch_guard_witness :
    (3 < (TPUSpawnStrategy.init 8 true).worldSize) ∧
    (root_device (TPUSpawnStrategy.init 8 true)
      = Except.error (PyError.runtimeError xlaUnlaunchedMsg)) ∧
    root_device (_worker_setup (TPUSpawnStrategy.init 8 true) 3)
      = Except.ok xla_device := by
  refine ⟨by decide, ?_, ?_⟩
  · exact (root_device_launch_guard (TPUSpawnStrategy.init 8 true) 3 (by decide)).1 rfl
  · exact (root_device_launch_guard (TPUSpawnStrategy.init 8 true) 3 (by decide)).2

/-- C2: with `reduce_op = "sum"` (any letter case), `reduce` returns the
arithmetic sum of the per-process inputs, non-tensor inputs being coerced to
tensor values first; with `reduce_op` `"mean"` or `"avg"` in any letter
case, it returns that cross-process sum divided by `world_size`
(sum-then-divide). -/
theorem reduce_sum_mean (s : TPUSpawnStrategy) (outputs : List RInput) (t : String)
    (hl : s.launched = true) (hlen : outputs.length = s.worldSize) :
    (py_lower t = "sum" →
      reduce s outputs (ReduceArg.str t)
        = Except.ok (outputs.map RInput.toTensorValue).sum) ∧
    (py_lower t = "mean" ∨ py_lower t = "avg" →
      reduce s outputs (ReduceArg.str t)
        = Except.ok ((outputs.map RInput.toTensorValue).sum / (s.worldSize : ℚ))) := by
  constructor
  · intro h
    simp [reduce, coerce_all_launched s hl, h]
  · intro h
    rcases h with h | h <;> simp [reduce, coerce_all_launched s hl, h]

theorem reduce_sum_mean_witness :
    (TPUSpawnStrategy.mk true 2 0 0 true).launched = true ∧
    ([RInput.tensor 3, RInput.pynum 5] : List RInput).length
      = (TPUSpawnStrategy.mk true 2 0 0 true).worldSize ∧
    reduce (TPUSpawnStrategy.mk true 2 0 0 true)
        [RInput.tensor 3, RInput.pynum 5] (ReduceArg.str "sum")
      = Except.ok 8 ∧
    reduce (TPUSpawnStrategy.mk true 2 0 0 true)
        [RInput.tensor 3, RInput.pynum 5] (ReduceArg.str "MEAN")
      = Except.ok 4 := by
  refine ⟨rfl, rfl, ?_, ?_⟩
  · have h := (reduce_sum_mean (TPUSpawnStrategy.mk true 2 0 0 true)
      [RInput.tensor 3, RInput.pynum 5] "sum" rfl rfl).1 (by decide)
    rw [h]
    norm_num [RInput.toTensorValue]
  · have h := (reduce_sum_mean (TPUSpawnStrategy.mk true 2 0 0 true)
      [RInput.tensor 3, RInput.pynum 5] "MEAN" rfl rfl).2 (Or.inl (by decide))
    rw [h]
    norm_num [RInput.toTensorValue]

/-- C3: `reduce` raises a `ValueError` naming the given operation for every
string `reduce_op` outside `{sum, mean, avg}` (compared case-insensitively)
and for every `ReduceOp` other than `SUM`. -/
theorem reduce_invalid_op (s : TPUSpawnStrategy) (outputs : List RInput)
    (hl : s.launched = true) :
    (∀ t : String, py_lower t ≠ "sum" → py_lower t ≠ "mean" → py_lower t ≠ "avg" →
      reduce s outputs (ReduceArg.str t)
        = Except.error (PyError.valueError (reduceErrBase ++ t))) ∧
    (∀ r : ReduceOp, r ≠ ReduceOp.SUM →
      reduce s outputs (ReduceArg.op r)
        = Except.error (PyError.valueError (reduceErrBase ++ r.render))) := by
  constructor
  · intro t h1 h2 h3
    simp [reduce, coerce_all_launched s hl, h1, h2, h3, ReduceArg.render]
  · intro r hr
    cases r with
    | SUM => exact absurd rfl hr
    | PRODUCT => simp [reduce, coerce_all_launched s hl, ReduceArg.render]
    | MIN => simp [reduce, coerce_all_launched s hl, ReduceArg.render]
    | MAX => simp [reduce, coerce_all_launched s hl, ReduceArg.render]

theorem reduce_invalid_op_witness :
    reduce (TPUSpawnStrategy.mk true 2 0 0 true) [RInput.tensor 3]
        (ReduceArg.str "max")
      = Except.error (PyError.valueError (reduceErrBase ++ "max")) ∧
    reduce (TPUSpawnStrategy.mk true 2 0 0 true) [RInput.tensor 3]
        (ReduceArg.op ReduceOp.MAX)
      = Except.error (PyError.valueError (reduceErrBase ++ ReduceOp.MAX.render)) := by
  constructor
  · exact (reduce_invalid_op (TPUSpawnStrategy.mk true 2 0 0 true)
      [RInput.tensor 3] rfl).1 "max" (by decide) (by decide) (by decide)
  · exact (reduce_invalid_op (TPUSpawnStrategy.mk true 2 0 0 true)
      [RInput.tensor 3] rfl).2 ReduceOp.MAX (by decide)

/-- C10: `reduce` called with `reduce_op = None` (the default), or with a
value that is neither a `str` nor a `ReduceOp`, passes validation and
returns the plain cross-process sum, with no division and no error; a
`ValueError` can only arise from a `str` or `ReduceOp` argument. -/
theorem reduce_none_or_other (s : TPUSpawnStrategy) (outputs : List RInput)
    (hl : s.launched = true) :
    reduce s outputs ReduceArg.none
        = Except.ok (outputs.map RInput.toTensorValue).sum ∧
    reduce s outputs ReduceArg.other
        = Except.ok (outputs.map RInput.toTensorValue).sum ∧
    (∀ a : ReduceArg, (∃ m, reduce s outputs a = Except.error (PyError.valueError m)) →
      (∃ t, a = ReduceArg.str t) ∨ (∃ r, a = ReduceArg.op r)) := by
  refine ⟨?_, ?_, ?_⟩
  · simp [reduce, coerce_all_launched s hl]
  · simp [reduce, coerce_all_launched s hl]
  · intro a h
    rcases h with ⟨m, hm⟩
    cases a with
    | str t => exact Or.inl ⟨t, rfl⟩
    | op r => exact Or.inr ⟨r, rfl⟩
    | none => simp [reduce, coerce_all_launched s hl] at hm
    | other => simp [reduce, coerce_all_launched s hl] at hm

theorem reduce_none_or_other_witness :
    reduce (TPUSpawnStrategy.mk true 2 0 0 true)
        [RInput.tensor 3, RInput.pynum 5] ReduceArg.none
      = Except.ok 8 ∧
    reduce (TPUSpawnStrategy.mk true 2 0 0 true)
        [RInput.tensor 3, RInput.pynum 5] ReduceArg.other
      = Except.ok 8 := by
  constructor
  · have h := (reduce_none_or_other (TPUSpawnStrategy.mk true 2 0 0 true)
      [RInput.tensor 3, RInput.pynum 5] rfl).1
    rw [h]
    norm_num [RInput.toTensorValue]
  · have h := (reduce_none_or_other (TPUSpawnStrategy.mk true 2 0 0 true)
      [RInput.tensor 3, RInput.pynum 5] rfl).2.1
    rw [h]
    norm_num [RInput.toTensorValue]

theorem remove_checkpoint_len_indicator (s : TPUSpawnStrategy) (fp : String) (i : Nat) :
    (remove_checkpoint { s with localRank := i } fp).length = if i = 0 then 1 else 0 := by
  by_cases h : i = 0 <;> simp [remove_checkpoint, h]

/-- C4: `remove_checkpoint` invokes the checkpoint-I/O delegate exactly once
when the caller's `local_rank` is 0 and not at all otherwise; hence across
any set of co-located ranks `0..n-1` all calling it identically, the
filesystem removal happens at most once. -/
theorem remove_checkpoint_rank_zero_guard (s : TPUSpawnStrategy) (fp : String) (n : Nat) :
    (s.localRank = 0 → remove_checkpoint s fp = [fp]) ∧
    (s.localRank ≠ 0 → remove_checkpoint s fp = []) ∧
    ((List.range n).map
      (fun i => (remove_checkpoint { s with localRank := i } fp).length)).sum ≤ 1 := by
  refine ⟨fun h => by simp [remove_checkpoint, h], fun h => by simp [remove_checkpoint, h], ?_⟩
  cases n with
  | zero => simp
  | succ m =>
    rw [List.range_succ_eq_map]
    simp only [List.map_cons, List.map_map, List.sum_cons]
    have h0 : (remove_checkpoint { s with localRank := 0 } fp).length = 1 := by
      simp [remove_checkpoint]
    have hs : ∀ i : Nat,
        (remove_checkpoint { s with localRank := i + 1 } fp).length = 0 := by
      intro i
      simp [remove_checkpoint]
    have : ((List.range m).map
        ((fun i => (remove_checkpoint { s with localRank := i } fp).length) ∘ Nat.succ)).sum
        = 0 := by
      apply List.sum_eq_zero
      intro x hx
      rcases List.mem_map.mp hx with ⟨i, _, hi⟩
      simpa [Function.comp, hs i] using hi.symm
    simp [h0, this]

theorem remove_checkpoint_rank_zero_guard_witness :
    remove_checkpoint (TPUSpawnStrategy.mk true 8 0 0 true) "ckpt.pt" = ["ckpt.pt"] ∧
    remove_checkpoint (TPUSpawnStrategy.mk true 8 3 3 true) "ckpt.pt" = [] ∧
    ((List.range 8).map
      (fun i => (remove_checkpoint { TPUSpawnStrategy.mk true 8 0 0 true with localRank := i }
        "ckpt.pt").length)).sum ≤ 1 := by
  refine ⟨?_, ?_, ?_⟩
  · exact (remove_checkpoint_rank_zero_guard (TPUSpawnStrategy.mk true 8 0 0 true)
      "ckpt.pt" 8).1 rfl
  · exact (remove_checkpoint_rank_zero_guard (TPUSpawnStrategy.mk true 8 3 3 true)
      "ckpt.pt" 8).2.1 (by decide)
  · exact (remove_checkpoint_rank_zero_guard (TPUSpawnStrategy.mk true 8 0 0 true)
      "ckpt.pt" 8).2.2

/-- C5: when `is_distributed` is false — the launcher-set environment
indicator is absent or the world size equals 1 — `broadcast` returns
exactly the input object, for any object and source rank. -/
theorem broadcast_not_distributed_identity (s : TPUSpawnStrategy) (obj : PyObj) (src : Nat)
    (h : s.hostWorldSizeSet = false ∨ s.worldSize = 1) :
    broadcast s obj src = Except.ok obj := by
  have hd : is_distributed s = false := by
    rcases h with h | h <;> simp [is_distributed, h]
  simp [broadcast, hd]

theorem broadcast_not_distributed_identity_witness :
    broadcast (TPUSpawnStrategy.mk false 1 0 0 true) (PyObj.mk [4, 0, 4]) 2
      = Except.ok (PyObj.mk [4, 0, 4]) := by
  exact broadcast_not_distributed_identity (TPUSpawnStrategy.mk false 1 0 0 true)
    (PyObj.mk [4, 0, 4]) 2 (Or.inr rfl)

theorem flatten_replicate_singleton (W : Nat) (v : ℚ) :
    (List.replicate W [v]).flatten = List.replicate W v := by
  induction W with
  | zero => rfl
  | succ n ih => simp [List.replicate_succ, ih]

/-- C6: `all_gather` promotes a zero-dimensional input to one dimension
before the collective and returns the stacked tensor of shape
`(world_size, ...input shape)`; in particular, a zero-dimensional input of
value `v` yields `world_size` elements, every one equal to `v`. -/
theorem all_gather_promotes_and_stacks (s : TPUSpawnStrategy) (t : STensor)
    (group : Option Unit) (sync_grads : Bool) :
    (t.shape = [] → (all_gather s t group sync_grads).shape = [s.worldSize, 1]) ∧
    (t.shape ≠ [] → (all_gather s t group sync_grads).shape = s.worldSize :: t.shape) ∧
    (∀ v : ℚ, t.shape = [] → t.data = [v] →
      (all_gather s t group sync_grads).data.length = s.worldSize ∧
      ∀ x ∈ (all_gather s t group sync_grads).data, x = v) := by
  refine ⟨?_, ?_, ?_⟩
  · intro h
    simp [all_gather, h, unsqueeze0, xm_all_gather_shaped]
  · intro h
    simp [all_gather, List.length_eq_zero, h, xm_all_gather_shaped]
  · intro v hsh hdata
    have : (all_gather s t group sync_grads).data = List.replicate s.worldSize v := by
      simp [all_gather, hsh, unsqueeze0, xm_all_gather_shaped, hdata,
        flatten_replicate_singleton]
    rw [this]
    exact ⟨List.length_replicate s.worldSize v, fun x hx => List.eq_of_mem_replicate hx⟩

theorem all_gather_promotes_and_stacks_witness :
    (all_gather (TPUSpawnStrategy.mk true 8 0 0 true) (STensor.mk [] [5]) Option.none false).shape
      = [8, 1] ∧
    (all_gather (TPUSpawnStrategy.mk true 8 0 0 true) (STensor.mk [4, 2] [0, 1, 2, 3, 4, 5, 6, 7])
        Option.none false).shape
      = [8, 4, 2] ∧
    (all_gather (TPUSpawnStrategy.mk true 8 0 0 true) (STensor.mk [] [5]) Option.none false).data.length
      = 8 ∧
    (all_gather (TPUSpawnStrategy.mk true 8 0 0 true) (STensor.mk [] [5]) Option.none false).data
      = [5, 5, 5, 5, 5, 5, 5, 5] := by
  have h := all_gather_promotes_and_stacks (TPUSpawnStrategy.mk true 8 0 0 true)
    (STensor.mk [] [5]) Option.none false
  have h2 := all_gather_promotes_and_stacks (TPUSpawnStrategy.mk true 8 0 0 true)
    (STensor.mk [4, 2] [0, 1, 2, 3, 4, 5, 6, 7]) Option.none false
  refine ⟨h.1 rfl, h2.2.1 (by decide), (h.2.2 5 rfl rfl).1, ?_⟩
  simp [all_gather, unsqueeze0, xm_all_gather_shaped, List.replicate]

mutual
theorem validate_matches_leaves : ∀ c : DLColl,
    (allLeavesHaveLen c = true ∧ _validate_dataloader c = Except.ok ()) ∨
    (allLeavesHaveLen c = false ∧
      _validate_dataloader c = Except.error (PyError.typeError tpuLenErrMsg))
  | DLColl.leaf h => by
    cases h <;> simp [allLeavesHaveLen, _validate_dataloader, check_has_len]
  | DLColl.seqc xs => by
    rcases validate_list_matches_leaves xs with ⟨h1, h2⟩ | ⟨h1, h2⟩ <;>
      simp [allLeavesHaveLen, _validate_dataloader, h1, h2]
  | DLColl.mapc xs => by
    rcases validate_pairs_matches_leaves xs with ⟨h1, h2⟩ | ⟨h1, h2⟩ <;>
      simp [allLeavesHaveLen, _validate_dataloader, h1, h2]

theorem validate_list_matches_leaves : ∀ xs : List DLColl,
    (allLeavesHaveLenList xs = true ∧ validate_list xs = Except.ok ()) ∨
    (allLeavesHaveLenList xs = false ∧
      validate_list xs = Except.error (PyError.typeError tpuLenErrMsg))
  | [] => by simp [allLeavesHaveLenList, validate_list]
  | x :: xs => by
    rcases validate_matches_leaves x with ⟨h1, h2⟩ | ⟨h1, h2⟩
    · rcases validate_list_matches_leaves xs with ⟨h3, h4⟩ | ⟨h3, h4⟩ <;>
        simp [allLeavesHaveLenList, validate_list, h1, h2, h3, h4]
    · simp [allLeavesHaveLenList, validate_list, h1, h2]

theorem validate_pairs_matches_leaves : ∀ xs : List (String × DLColl),
    (allLeavesHaveLenPairs xs = true ∧ validate_pairs xs = Except.ok ()) ∨
    (allLeavesHaveLenPairs xs = false ∧
      validate_pairs xs = Except.error (PyError.typeError tpuLenErrMsg))
  | [] => by simp [allLeavesHaveLenPairs, validate_pairs]
  | x :: xs => by
    rcases validate_matches_leaves x.2 with ⟨h1, h2⟩ | ⟨h1, h2⟩
    · rcases validate_pairs_matches_leaves xs with ⟨h3, h4⟩ | ⟨h3, h4⟩ <;>
        simp [allLeavesHaveLenPairs, validate_pairs, h1, h2, h3, h4]
    · simp [allLeavesHaveLenPairs, validate_pairs, h1, h2]
end

/-- C7: `_validate_dataloader` recurses through arbitrarily nested
sequence/mapping containers and raises a configuration error exactly when
some leaf dataloader lacks length support; a collection whose every leaf
has a length passes without error. -/
theorem validate_dataloader_len_spec (c : DLColl) :
    (_validate_dataloader c = Except.ok () ↔ allLeavesHaveLen c = true) ∧
    (allLeavesHaveLen c = false →
      _validate_dataloader c = Except.error (PyError.typeError tpuLenErrMsg)) := by
  rcases validate_matches_leaves c with ⟨h1, h2⟩ | ⟨h1, h2⟩ <;> rw [h1, h2] <;> simp

theorem validate_dataloader_len_spec_witness :
    _validate_dataloader (DLColl.mapc [("train", DLColl.seqc [DLColl.leaf false])])
      = Except.error (PyError.typeError tpuLenErrMsg) ∧
    _validate_dataloader
        (DLColl.mapc [("train", DLColl.seqc [DLColl.leaf true, DLColl.leaf true])])
      = Except.ok () := by
  constructor
  · exact (validate_dataloader_len_spec
      (DLColl.mapc [("train", DLColl.seqc [DLColl.leaf false])])).2
      (by simp [allLeavesHaveLen, allLeavesHaveLenList, allLeavesHaveLenPairs])
  · exact (validate_dataloader_len_spec
      (DLColl.mapc [("train", DLColl.seqc [DLColl.leaf true, DLColl.leaf true])])).1.mpr
      (by simp [allLeavesHaveLen, allLeavesHaveLenList, allLeavesHaveLenPairs])

/-- C8 counterexample: the tensor `broadcast` builds from the serialized
buffer (`torch.tensor(data, device=self.root_device, dtype=torch.float)`)
has dtype `float`, not `byte`, at the concrete object with payload
`[1, 2, 3]` — refuting the claim that the buffer is wrapped as a byte
tensor before the all-gather. -/
theorem broadcast_wrap_not_byte_counterexample :
    (broadcast_wrap (Device.xla 0) (PyObj.mk [1, 2, 3])).dtype = Dtype.float ∧
    ¬ (broadcast_wrap (Device.xla 0) (PyObj.mk [1, 2, 3])).dtype = Dtype.byte := by
  decide

/-- C8 (amended): when `is_distributed` is true, `broadcast` serializes the
object to a byte buffer, wraps that buffer as a tensor of dtype
`torch.float` on the bound device, all-gathers these float tensors across
processes, converts the gathered tensor to bytes on the CPU, and
deserializes the gathered buffer — recovering the original object. -/
theorem broadcast_distributed_pipeline (s : TPUSpawnStrategy) (obj : PyObj) (src : Nat)
    (hd : is_distributed s = true) (hl : s.launched = true) (hw : 0 < s.worldSize) :
    (broadcast_wrap xla_device obj).dtype = Dtype.float ∧
    (broadcast_wrap xla_device obj).data = torch_save obj ∧
    broadcast s obj src
      = Except.ok (torch_load
          (tensor_cpu_byte (xm_all_gather s.worldSize (broadcast_wrap xla_device obj))).data) ∧
    broadcast s obj src = Except.ok obj := by
  refine ⟨rfl, rfl, ?_, ?_⟩
  · simp [broadcast, hd, root_device, hl]
  · have hload : torch_load
        (tensor_cpu_byte (xm_all_gather s.worldSize (broadcast_wrap xla_device obj))).data
        = obj := by
      obtain ⟨m, hm⟩ := Nat.exists_eq_succ_of_ne_zero (Nat.pos_iff_ne_zero.mp hw)
      rw [hm]
      simp only [tensor_cpu_byte, xm_all_gather, broadcast_wrap, List.replicate_succ,
        List.flatten_cons, torch_save, torch_load, List.cons_append]
      rw [List.take_left']
      rfl
    simp [broadcast, hd, root_device, hl, hload]

theorem broadcast_distributed_pipeline_witness :
    is_distributed (TPUSpawnStrategy.mk true 2 0 0 true) = true ∧
    (TPUSpawnStrategy.mk true 2 0 0 true).launched = true ∧
    0 < (TPUSpawnStrategy.mk true 2 0 0 true).worldSize ∧
    broadcast (TPUSpawnStrategy.mk true 2 0 0 true) (PyObj.mk [9, 8]) 0
      = Except.ok (PyObj.mk [9, 8]) := by
  refine ⟨rfl, rfl, by decide, ?_⟩
  exact (broadcast_distributed_pipeline (TPUSpawnStrategy.mk true 2 0 0 true)
    (PyObj.mk [9, 8]) 0 rfl rfl (by decide)).2.2.2

/-- C9: `ColossalAIPrecisionPlugin.optimizer_step` raises a
`MisconfigurationException` without calling `optimizer.step()` exactly when
the closure result is `None` and the model is a `LightningModule` with
automatic optimization enabled; in every other case it calls
`optimizer.step()` and returns without error. -/
theorem optimizer_step_skip_guard (m : ModelKind) (r : Option ℚ) :
    ((optimizer_step m r).error
        = some (PyError.misconfigurationException colossalSkipMsg) ∧
      (optimizer_step m r).optimizer_stepped = false
      ↔ r = Option.none ∧ m = ModelKind.lightningModule true) ∧
    (¬ (r = Option.none ∧ m = ModelKind.lightningModule true) →
      (optimizer_step m r).error = Option.none ∧
      (optimizer_step m r).optimizer_stepped = true) := by
  cases m with
  | lightningModule auto => cases auto <;> cases r <;> simp [optimizer_step]
  | plainModule => cases r <;> simp [optimizer_step]

theorem optimizer_step_skip_guard_witness :
    (optimizer_step (ModelKind.lightningModule true) Option.none).error
      = some (PyError.misconfigurationException colossalSkipMsg) ∧
    (optimizer_step (ModelKind.lightningModule true) Option.none).optimizer_stepped = false ∧
    (optimizer_step (ModelKind.lightningModule true) (some 1)).error = Option.none ∧
    (optimizer_step (ModelKind.lightningModule true) (some 1)).optimizer_stepped = true ∧
    (optimizer_step ModelKind.plainModule Option.none).optimizer_stepped = true := by
  have h1 := ((optimizer_step_skip_guard (ModelKind.lightningModule true) Option.none).1.mpr
    ⟨rfl, rfl⟩)
  have h2 := (optimizer_step_skip_guard (ModelKind.lightningModule true) (some 1)).2
    (by simp)
  have h3 := (optimizer_step_skip_guard ModelKind.plainModule Option.none).2 (by simp)
  exact ⟨h1.1, h1.2, h2.1, h2.2, h3.2⟩

end Lightning
